import Mathlib

/-!
Verification of the three terminal utilities in this repository
(`contact_book.py`, `todo_app.py`, `calc.py`) against their specification.

The Python sources are shallowly embedded: pure record manipulation becomes
Lean functions on lists of structures, interactive loops become functions
consuming a finite script of input lines, and CSV/JSON persistence is
modelled at the row/record level.  Python strings are Lean `String`s
(operated on through `List Char`); Python numbers entered in the calculator
are modelled exactly over `ℚ`.
-/

/-! ### Python string primitives -/

/-- Python `str.strip()` restricted to ASCII whitespace (the inputs the
programs handle): drop whitespace from both ends. -/
def pystrip (s : String) : String :=
  String.mk ((s.toList.dropWhile Char.isWhitespace).reverse.dropWhile Char.isWhitespace).reverse

/-- Python `str.lower()` on the ASCII fragment: lower-case every character. -/
def pylower (s : String) : String :=
  String.mk (s.toList.map Char.toLower)

/-- Substring test on character lists: Python's `needle in hay`. -/
def isSubstrList (needle hay : List Char) : Bool :=
  match hay with
  | [] => needle.isEmpty
  | _ :: t => needle.isPrefixOf hay || isSubstrList needle t

/-- Python `needle in hay` on strings. -/
def strContains (hay needle : String) : Bool :=
  isSubstrList needle.toList hay.toList

/-- Python `s.replace(c, '')` for a single-character pattern: remove every
occurrence of `c`. -/
def removeChar (c : Char) (s : String) : String :=
  String.mk (s.toList.filter (fun x => x ≠ c))

/-- Digit run to a natural number. -/
def digitsToNat (l : List Char) : ℕ :=
  l.foldl (fun n c => 10 * n + (c.toNat - 48)) 0

/-- Python `int(s)` on an already-stripped string: optional sign followed by
one or more digits (underscore grouping not modelled; none of the programs
feed it). `none` models the `ValueError`. -/
def pyint (s : String) : Option ℤ :=
  match s.toList with
  | '-' :: r => if r ≠ [] ∧ r.all Char.isDigit then some (-(digitsToNat r : ℤ)) else none
  | '+' :: r => if r ≠ [] ∧ r.all Char.isDigit then some ((digitsToNat r : ℤ)) else none
  | r => if r ≠ [] ∧ r.all Char.isDigit then some ((digitsToNat r : ℤ)) else none

/-- Python `float(s)` on an already-stripped string, on the decimal-literal
fragment the calculator session uses: optional sign, digits, optional `'.'`
and fraction digits (exponent notation, `inf`, `nan` not modelled).  The
value is kept exactly as a rational. `none` models the `ValueError`. -/
def pyfloat (s : String) : Option ℚ :=
  let (sign, rest) : ℚ × List Char :=
    match s.toList with
    | '-' :: r => (-1, r)
    | '+' :: r => (1, r)
    | r => (1, r)
  let intPart := rest.takeWhile Char.isDigit
  match rest.dropWhile Char.isDigit with
  | [] => if intPart = [] then none else some (sign * (digitsToNat intPart : ℚ))
  | '.' :: frac =>
      if frac.all Char.isDigit ∧ (intPart ≠ [] ∨ frac ≠ []) then
        some (sign * ((digitsToNat intPart : ℚ) + (digitsToNat frac : ℚ) / (10 ^ frac.length)))
      else none
  | _ => none

/-! ### Contact book: data model and persistence (`contact_book.py`) -/

/-- One contact record: the four string fields of `CONTACT_FIELDS`. -/
structure Contact where
  name : String
  phone : String
  email : String
  address : String
deriving DecidableEq, Repr

/-- The header row `csv.DictWriter.writeheader()` emits: each cell is the
literal field name. -/
def headerRow : Contact := ⟨"name", "phone", "email", "address"⟩

/-- `save_contacts` (contact_book.py:37-50), modelled at CSV-row level: the
file contents after a save are the header row followed by every record, the
previous contents fully overwritten (mode `'w'`). -/
def save_contacts (contacts_list : List Contact) : List Contact :=
  headerRow :: contacts_list

/-- `load_contacts` (contact_book.py:12-34), modelled at CSV-row level:
`DictReader` yields the rows in order; the first row is kept only when its
`name` cell differs from the literal `"name"` (the header-detection
heuristic), every later row is kept. -/
def load_contacts (rows : List Contact) : List Contact :=
  match rows with
  | [] => []
  | first_row :: rest => (if first_row.name ≠ "name" then [first_row] else []) ++ rest

/-! ### Contact book: search (`contact_book.py:108-132`) -/

/-- The per-contact test of `search_contact`'s list comprehension:
`term in c['name'].lower() or term in c['phone'].replace(' ', '').replace('-', '')`.
`term` arrives already stripped and lower-cased by the caller. -/
def contactMatches (term : String) (c : Contact) : Bool :=
  strContains (pylower c.name) term || strContains (removeChar '-' (removeChar ' ' c.phone)) term

/-- `search_contact` (contact_book.py:108-132), returning the list of
matching contacts (`found_contacts`); on an empty book the function returns
before reading the term. -/
def search_contact (contacts_list : List Contact) (raw_term : String) : List Contact :=
  if contacts_list.isEmpty then []
  else
    let term := pylower (pystrip raw_term)
    contacts_list.filter (contactMatches term)

/-! ### Helper lemmas on the string primitives -/

/-- The empty needle is a substring of every character list. -/
theorem isSubstrList_nil_needle (hay : List Char) : isSubstrList [] hay = true := by
  cases hay <;> simp [isSubstrList, List.isPrefixOf]

/-- Python: `"" in s` is always `True`. -/
theorem strContains_empty (hay : String) : strContains hay "" = true := by
  unfold strContains
  exact isSubstrList_nil_needle _

/-! ### Theorems: contact persistence and search -/

/-- C1: saving a contact collection and loading it back yields exactly the
same records, and a save always writes the fresh header row followed by
every record. -/
theorem load_save_roundTrip (contacts : List Contact) :
    load_contacts (save_contacts contacts) = contacts ∧
    save_contacts contacts = headerRow :: contacts := by
  refine ⟨?_, rfl⟩
  simp [load_contacts, save_contacts, headerRow]

/-- C2 counterexample: the claim's own example fails on the code.  For the
stored phone `"(555) 123-4567"`, searching `"5551234567"` returns no match,
because `search_contact` strips only spaces and dashes from the phone and
the retained parenthesis interrupts the digit run. -/
theorem search_parenPhone_noMatch :
    search_contact [⟨"Alice", "(555) 123-4567", "alice@mail.com", ""⟩]
      "5551234567" = [] := by
  decide

/-- C2 amended: search strips only spaces and dashes from the phone —
parentheses are retained.  The term `"5551234567"` does match a stored phone
whose separators are only spaces and dashes (`"555 123-4567"`), and a term
that itself carries the parentheses (`"(555)1234567"`) matches the stored
phone `"(555) 123-4567"`. -/
theorem search_phone_spaceDashStripped :
    search_contact [⟨"Alice", "555 123-4567", "alice@mail.com", ""⟩]
        "5551234567" =
      [⟨"Alice", "555 123-4567", "alice@mail.com", ""⟩] ∧
    search_contact [⟨"Bob", "(555) 123-4567", "bob@mail.com", ""⟩]
        "(555)1234567" =
      [⟨"Bob", "(555) 123-4567", "bob@mail.com", ""⟩] := by
  constructor <;> decide

/-- C10: on a non-empty contact book, a search term that strips to the empty
string matches every contact (the empty string is a substring of every
lower-cased name), so the whole collection is reported. -/
theorem search_emptyTerm_matchesAll (cs : List Contact) (raw : String)
    (hcs : cs ≠ []) (hterm : pystrip raw = "") :
    search_contact cs raw = cs := by
  unfold search_contact
  rw [if_neg (by simpa using hcs)]
  rw [hterm]
  have hall : ∀ c ∈ cs, contactMatches (pylower "") c = true := by
    intro c _
    unfold contactMatches
    have : pylower "" = "" := rfl
    rw [this, strContains_empty, strContains_empty]
    simp
  exact List.filter_eq_self.mpr hall

/-- C10 witness: a one-contact book searched with an all-whitespace term
reports that contact. -/
theorem search_emptyTerm_matchesAll_witness :
    search_contact [⟨"Alice", "555", "a@b.c", ""⟩] "  " =
      [⟨"Alice", "555", "a@b.c", ""⟩] :=
  search_emptyTerm_matchesAll _ _ (by decide) (by decide)

/-! ### To-do list: data model and operations (`todo_app.py`) -/

namespace Todo

/-- One task record: the five JSON keys written by `add_task`.  (Namespaced
because core Lean already has a `Task` type.) -/
structure Task where
  id : ℤ
  description : String
  done : Bool
  created_on : String
  due_date : String
deriving DecidableEq, Repr

/-- `get_next_id` (todo_app.py:33-39): `1` on an empty list, otherwise the
maximum existing id plus one. -/
def get_next_id (tasks_list : List Task) : ℤ :=
  match tasks_list with
  | [] => 1
  | t :: ts => ts.foldl (fun m x => max m x.id) t.id + 1

/-- Gregorian leap-year test, as `datetime` applies it. -/
def is_leap (y : ℕ) : Bool :=
  (y % 4 == 0 && y % 100 != 0) || (y % 400 == 0)

/-- Days in a month, as `datetime` validates the `%d` field. -/
def days_in_month (y m : ℕ) : ℕ :=
  if m = 2 then (if is_leap y then 29 else 28)
  else if m = 4 ∨ m = 6 ∨ m = 9 ∨ m = 11 then 30
  else 31

/-- Split a character list at every `'-'`. -/
def splitDash : List Char → List (List Char)
  | [] => [[]]
  | '-' :: rest => [] :: splitDash rest
  | c :: rest =>
    match splitDash rest with
    | h :: t => (c :: h) :: t
    | [] => [[c]]

/-- `datetime.strptime(s, "%Y-%m-%d")` succeeding, modelled from CPython's
`_strptime`: exactly four year digits, one or two month digits in `1..12`,
one or two day digits valid for that month, the whole string consumed. -/
def valid_date (s : String) : Bool :=
  match splitDash s.toList with
  | [ys, ms, ds] =>
    ys.all Char.isDigit && ys.length == 4 &&
    ms.all Char.isDigit && (ms.length == 1 || ms.length == 2) &&
    ds.all Char.isDigit && (ds.length == 1 || ds.length == 2) &&
    (let m := digitsToNat ms
     let d := digitsToNat ds
     1 ≤ m && m ≤ 12 && 1 ≤ d && d ≤ days_in_month (digitsToNat ys) m)
  | _ => false

/-- `add_task` (todo_app.py:43-70) on the two input lines it reads (the
description and the optional due date) plus the current date stamp: an empty
description aborts; a non-empty due date that fails `valid_date` is dropped
to `""` with the add still performed; the new task gets `get_next_id` and is
appended. -/
def add_task (tasks_list : List Task) (desc_input due_date_input today : String) :
    List Task :=
  let description := pystrip desc_input
  if description = "" then tasks_list
  else
    let ddi := pystrip due_date_input
    let due_date := if ddi ≠ "" ∧ valid_date ddi then ddi else ""
    tasks_list ++ [⟨get_next_id tasks_list, description, false, today, due_date⟩]

/-- `find_task_by_id` (todo_app.py:85-91): parse the id, then first task
with that id; `none` on parse failure or no match. -/
def find_task_by_id (tasks_list : List Task) (task_id : String) : Option Task :=
  match pyint task_id with
  | none => none
  | some n => tasks_list.find? (fun t => t.id == n)

/-- `delete_task` (todo_app.py:105-116) on the id input line: look up the
first task with the entered id; if found, keep exactly the tasks whose id
differs (the list-comprehension rebuild), else leave the list unchanged. -/
def delete_task (tasks_list : List Task) (task_id_input : String) : List Task :=
  match find_task_by_id tasks_list (pystrip task_id_input) with
  | some task => tasks_list.filter (fun t => t.id != task.id)
  | none => tasks_list

end Todo

open Todo

/-! ### Helper lemmas: folded maximum over the id list -/

/-- The seed is below the folded maximum. -/
theorem le_foldl_max (l : List ℤ) (a : ℤ) : a ≤ l.foldl max a := by
  induction l generalizing a with
  | nil => simp
  | cons b t ih =>
    rw [List.foldl_cons]
    exact le_trans (le_max_left a b) (ih (max a b))

/-- Every element is below the folded maximum. -/
theorem mem_le_foldl_max (l : List ℤ) (a x : ℤ) (hx : x ∈ l) : x ≤ l.foldl max a := by
  induction l generalizing a with
  | nil => cases hx
  | cons b t ih =>
    rw [List.foldl_cons]
    rcases List.mem_cons.mp hx with h | h
    · subst h
      exact le_trans (le_max_right a x) (le_foldl_max t _)
    · exact ih _ h

/-- The folded maximum is the seed or one of the elements. -/
theorem foldl_max_mem (l : List ℤ) (a : ℤ) : l.foldl max a ∈ a :: l := by
  induction l generalizing a with
  | nil => simp
  | cons b t ih =>
    rw [List.foldl_cons]
    rcases List.mem_cons.mp (ih (max a b)) with h1 | h1
    · rcases max_choice a b with hm | hm
      · rw [h1, hm]; exact List.mem_cons_self _ _
      · rw [h1, hm]
        exact List.mem_cons_of_mem _ (List.mem_cons_self _ _)
    · exact List.mem_cons_of_mem _ (List.mem_cons_of_mem _ h1)

/-! ### Theorems: task ids -/

/-- C3: `get_next_id` is `1` on the empty collection and `max id + 1`
otherwise; adding a task (with an accepted description) appends exactly one
task carrying `get_next_id` of the previous collection; deleting leaves the
remaining tasks as the very same records in the same order (a sublist), so
no surviving task's id changes; and after deleting id 3 from ids
`{1,2,3,4}`, the next id is `5`, not `3`. -/
theorem todo_next_id_spec :
    get_next_id ([] : List Task) = 1 ∧
    (∀ (ts : List Task) (m : ℤ), m ∈ ts.map Task.id →
      (∀ i ∈ ts.map Task.id, i ≤ m) → get_next_id ts = m + 1) ∧
    (∀ (ts : List Task) (d ddi today : String), pystrip d ≠ "" →
      (add_task ts d ddi today).map Task.id = ts.map Task.id ++ [get_next_id ts]) ∧
    (∀ (ts : List Task) (s : String), (delete_task ts s).Sublist ts) ∧
    get_next_id (delete_task
      [⟨1, "t1", false, "2026-10-12", ""⟩, ⟨2, "t2", false, "2026-10-12", ""⟩,
       ⟨3, "t3", false, "2026-10-12", ""⟩, ⟨4, "t4", false, "2026-10-12", ""⟩]
      "3") = 5 := by
  refine ⟨rfl, ?_, ?_, ?_, by decide⟩
  · intro ts m hm hub
    cases ts with
    | nil => simp at hm
    | cons t us =>
      have hfold : us.foldl (fun a x => max a x.id) t.id =
          (us.map Task.id).foldl max t.id := (List.foldl_map _ _ _ _).symm
      have hred : get_next_id (t :: us) = us.foldl (fun a x => max a x.id) t.id + 1 := rfl
      rw [hred, hfold]
      have hmem : (us.map Task.id).foldl max t.id ∈ t.id :: us.map Task.id :=
        foldl_max_mem _ _
      have hle : (us.map Task.id).foldl max t.id ≤ m := by
        apply hub
        simpa using hmem
      have hge : m ≤ (us.map Task.id).foldl max t.id := by
        rcases List.mem_cons.mp (by simpa using hm : m ∈ t.id :: us.map Task.id) with h | h
        · rw [h]; exact le_foldl_max _ _
        · exact mem_le_foldl_max _ _ _ h
      omega
  · intro ts d ddi today hd
    unfold add_task
    rw [if_neg hd]
    simp
  · intro ts s
    unfold delete_task
    split
    · exact List.filter_sublist _
    · exact List.Sublist.refl _

/-- C3 witness: on the one-task collection with id 7, the next id is 8. -/
theorem todo_next_id_spec_witness :
    get_next_id [(⟨7, "a", false, "2026-01-01", ""⟩ : Task)] = 7 + 1 :=
  todo_next_id_spec.2.1 _ 7 (by decide) (by decide)

/-- C8: a non-empty due-date input that fails the date parse is dropped: the
add still completes, appending the new task with `due_date = ""`. -/
theorem add_task_badDate_stillAdds (ts : List Task) (d ddi today : String)
    (hd : pystrip d ≠ "") (hne : pystrip ddi ≠ "")
    (hbad : valid_date (pystrip ddi) = false) :
    add_task ts d ddi today =
      ts ++ [⟨get_next_id ts, pystrip d, false, today, ""⟩] := by
  unfold add_task
  rw [if_neg hd]
  simp [hbad]

/-- C8 witness: adding "buy milk" with the unparseable due date "tomorrow"
creates task 1 with an empty due date. -/
theorem add_task_badDate_stillAdds_witness :
    add_task [] "buy milk" "tomorrow" "2026-10-12" =
      [⟨1, "buy milk", false, "2026-10-12", ""⟩] :=
  (add_task_badDate_stillAdds [] "buy milk" "tomorrow" "2026-10-12"
    (by decide) (by decide) (by decide)).trans (by decide)

/-- C9: when some task carries the entered id, `delete_task` keeps exactly
the tasks whose id differs — every duplicate bearing that id is removed in
the one operation, and the survivors are the same records in the same order
(`List.filter`). -/
theorem delete_task_removesAllWithId (ts : List Task) (s : String) (n : ℤ)
    (hp : pyint (pystrip s) = some n) (hex : ∃ t ∈ ts, t.id = n) :
    delete_task ts s = ts.filter (fun t => t.id != n) := by
  obtain ⟨t, ht, htid⟩ := hex
  have hfind : (ts.find? (fun t => t.id == n)).isSome := by
    apply List.find?_isSome.mpr
    exact ⟨t, ht, by simp [htid]⟩
  obtain ⟨u, hu⟩ := Option.isSome_iff_exists.mp hfind
  have huid : u.id = n := by
    have := List.find?_some hu
    simpa using this
  have hfd : find_task_by_id ts (pystrip s) = some u := by
    unfold find_task_by_id
    rw [hp]
    exact hu
  unfold delete_task
  rw [hfd]
  show ts.filter (fun t => t.id != u.id) = ts.filter (fun t => t.id != n)
  rw [huid]

/-- C9 witness: two tasks share id 1 (an externally edited file); deleting
id 1 removes both and keeps task 2. -/
theorem delete_task_removesAllWithId_witness :
    delete_task
      [⟨1, "a", false, "d", ""⟩, ⟨2, "b", false, "d", ""⟩, ⟨1, "c", false, "d", ""⟩]
      "1" = [⟨2, "b", false, "d", ""⟩] :=
  (delete_task_removesAllWithId _ "1" 1 (by decide)
    ⟨⟨1, "a", false, "d", ""⟩, by decide, rfl⟩).trans (by decide)

/-! ### Calculator (`calc.py`): arithmetic and dispatch -/

/-- `add_numbers` (calc.py:5-6). -/
def add_numbers (a b : ℚ) : Except String ℚ := .ok (a + b)

/-- `subtract_numbers` (calc.py:8-9). -/
def subtract_numbers (a b : ℚ) : Except String ℚ := .ok (a - b)

/-- `multiply_numbers` (calc.py:11-12). -/
def multiply_numbers (a b : ℚ) : Except String ℚ := .ok (a * b)

/-- `divide_numbers` (calc.py:14-17): raising `ZeroDivisionError` is the
`error` branch, carrying the exception's message. -/
def divide_numbers (a b : ℚ) : Except String ℚ :=
  if b = 0 then .error "Cannot divide by zero. Please try a different number."
  else .ok (a / b)

/-- `power_numbers` (calc.py:19-20), `a ** b`, modelled on the
integer-exponent fragment (`b.den = 1`, the only exponents whose float power
stays rational in general); `0.0 ** negative` raises `ZeroDivisionError` in
Python and is the `error` branch.  No theorem uses a non-integer exponent. -/
def power_numbers (a b : ℚ) : Except String ℚ :=
  if a = 0 ∧ b < 0 then .error "0.0 cannot be raised to a negative power"
  else .ok (a ^ b.num)

/-- `OPERATION_MAP` (calc.py:24-30): symbol-to-function dispatch. -/
def OPERATION_MAP (op : String) : Option (ℚ → ℚ → Except String ℚ) :=
  if op = "+" then some add_numbers
  else if op = "-" then some subtract_numbers
  else if op = "*" then some multiply_numbers
  else if op = "/" then some divide_numbers
  else if op = "**" then some power_numbers
  else none

/-- The spec's `calculate(a, operator, b)`: look the operator up in
`OPERATION_MAP` and apply it (calc.py:71-72); `none` for an unknown
operator. -/
def calculate (a : ℚ) (op : String) (b : ℚ) : Option (Except String ℚ) :=
  (OPERATION_MAP op).map (fun f => f a b)

/-! ### Calculator session loop (`calc.py:34-81`) -/

/-- The messages the session prints, abstracted from their formatting. -/
inductive CalcOutput where
  | invalidNumberA
  | invalidOp (op : String)
  | invalidNumberB
  | result (a : ℚ) (op : String) (b : ℚ) (r : ℚ)
  | calcError (msg : String)
deriving DecidableEq, Repr

/-- How a finite input script leaves the loop: `sys.exit` via an escape
token, or the script ran out at a prompt. -/
inductive SessionEnd where
  | exited
  | inputExhausted
deriving DecidableEq, Repr

/-- The escape-token test `value.lower() in ('exit', 'quit')`. -/
def isEscape (s : String) : Bool := pylower s == "exit" || pylower s == "quit"

/-- `run_calculator` (calc.py:34-81) over a finite script of input lines:
each iteration reads the first operand (escape check, float parse with
`continue` on failure), the operator (escape check, membership check with
`continue` on failure), the second operand likewise, then computes, catching
`ZeroDivisionError` as a printed message, and loops. -/
def run_calculator : List String → List CalcOutput × SessionEnd
  | [] => ([], .inputExhausted)
  | rawA :: rest =>
    let ia := pystrip rawA
    if isEscape ia then ([], .exited)
    else
      match pyfloat ia with
      | none =>
        let (outs, e) := run_calculator rest
        (.invalidNumberA :: outs, e)
      | some a =>
        match rest with
        | [] => ([], .inputExhausted)
        | rawOp :: rest2 =>
          let op := pystrip rawOp
          if isEscape op then ([], .exited)
          else
            match OPERATION_MAP op with
            | none =>
              let (outs, e) := run_calculator rest2
              (.invalidOp op :: outs, e)
            | some f =>
              match rest2 with
              | [] => ([], .inputExhausted)
              | rawB :: rest3 =>
                let ib := pystrip rawB
                if isEscape ib then ([], .exited)
                else
                  match pyfloat ib with
                  | none =>
                    let (outs, e) := run_calculator rest3
                    (.invalidNumberB :: outs, e)
                  | some b =>
                    let (outs, e) := run_calculator rest3
                    ((match f a b with
                      | .ok r => .result a op b r
                      | .error m => .calcError m) :: outs, e)

/-! ### Theorems: calculator -/

/-- C4: `calculate(5, "/", 0)` raises the distinguished divide-by-zero
condition, and in a session it is caught and surfaced as the labeled
`Calculation Error` message while the loop continues: the next iteration
still runs (here computing `2 + 3`) and the session ends only at the
explicit escape token. -/
theorem divByZero_caught_loopContinues :
    calculate 5 "/" 0 =
      some (.error "Cannot divide by zero. Please try a different number.") ∧
    run_calculator ["5", "/", "0", "2", "+", "3", "exit"] =
      ([.calcError "Cannot divide by zero. Please try a different number.",
        .result 2 "+" 3 5], .exited) := by
  constructor
  · rfl
  · with_unfolding_all decide

/-- C7: for every operator of the enumerated set, `calculate` returns the
exact mathematical value: `+`, `-`, `*` unconditionally, `/` whenever the
divisor is non-zero, `**` on every integer exponent for which the power is
mathematically defined (non-zero base, or non-negative exponent), and in
particular `2 ** 10 = 1024`. -/
theorem calculate_matches_math (a b : ℚ) (n : ℤ) :
    calculate a "+" b = some (.ok (a + b)) ∧
    calculate a "-" b = some (.ok (a - b)) ∧
    calculate a "*" b = some (.ok (a * b)) ∧
    (b ≠ 0 → calculate a "/" b = some (.ok (a / b))) ∧
    ((a ≠ 0 ∨ 0 ≤ n) → calculate a "**" (n : ℚ) = some (.ok (a ^ n))) ∧
    calculate 2 "**" 10 = some (.ok 1024) := by
  refine ⟨rfl, rfl, rfl, ?_, ?_, ?_⟩
  · intro hb
    have h1 : calculate a "/" b = some (divide_numbers a b) := rfl
    rw [h1]
    unfold divide_numbers
    rw [if_neg hb]
  · intro hdef
    have h1 : calculate a "**" (n : ℚ) = some (power_numbers a (n : ℚ)) := rfl
    rw [h1]
    unfold power_numbers
    rw [if_neg, Rat.num_intCast]
    rintro ⟨ha, hneg⟩
    rcases hdef with h | h
    · exact h ha
    · exact absurd hneg (by simpa using h)
  · have h1 : calculate 2 "**" 10 = some (power_numbers 2 10) := rfl
    rw [h1]
    unfold power_numbers
    rw [if_neg (by norm_num)]
    norm_num

/-- C7 witness: `calculate 3 "/" 2` returns the exact quotient. -/
theorem calculate_matches_math_witness :
    calculate 3 "/" 2 = some (.ok (3 / 2 : ℚ)) :=
  (calculate_matches_math 3 2 0).2.2.2.1 (by norm_num)

/-! ### Input validation (`contact_book.py:55-75`) and re-entry -/

/-- `re.match(r"[^@]+@[^@]+\.[^@]+", value)` succeeding: a run of non-`@`
characters, then `@`, then (before any further `@`) a `.` preceded by at
least one character and followed by at least one. `hasDotNotLast` scans the
segment after the `@` for a `.` that is neither first nor last. -/
def hasDotNotLast : List Char → Bool
  | [] => false
  | ['.'] => false
  | '.' :: _ :: _ => true
  | _ :: rest => hasDotNotLast rest

/-- Whether the post-`@` segment contains `[^@]+\.[^@]+` as a prefix part:
one character of the middle run, then a dot that still has a successor in
the segment. -/
def dotAt (seg : List Char) : Bool :=
  match seg with
  | [] => false
  | _ :: rest => hasDotNotLast rest

/-- The email-shape check of `get_validated_input` (contact_book.py:63-67). -/
def email_ok (s : String) : Bool :=
  let l := s.toList
  let before := l.takeWhile (fun c => c ≠ '@')
  match l.drop before.length with
  | '@' :: tail => before ≠ [] && dotAt (tail.takeWhile (fun c => c ≠ '@'))
  | _ => false

/-- The phone-shape check `re.match(r"^[0-9()\s-]+$", value)`
(contact_book.py:69-73). -/
def phone_ok (s : String) : Bool :=
  s.toList ≠ [] && s.toList.all (fun c => c.isDigit || c = '(' || c = ')' || c.isWhitespace || c = '-')

/-- The three `validation_type` values of `get_validated_input`. -/
inductive VType where
  | text
  | email
  | phone
deriving DecidableEq, Repr

/-- One trip through `get_validated_input`'s loop body: non-empty after
strip, plus the email/phone shape check for those types. -/
def validates (ty : VType) (value : String) : Bool :=
  value ≠ "" &&
    match ty with
    | .text => true
    | .email => email_ok value
    | .phone => phone_ok value

/-- `get_validated_input` (contact_book.py:55-75) over a finite input
script: keep consuming lines until one validates, returning it with the
unconsumed remainder; `none` models the script running out (an `EOFError`
at `input()`). -/
def get_validated_input (ty : VType) : List String → Option (String × List String)
  | [] => none
  | raw :: rest =>
    let value := pystrip raw
    if validates ty value then some (value, rest)
    else get_validated_input ty rest

/-- C5 counterexample: in the calculator, a validation failure does NOT
re-prompt for the same field.  After accepting the first operand `5`, the
invalid operator `"%"` makes the loop `continue` from the top: the next
line `"7"` is consumed as a fresh first operand (the accepted `5` is
discarded) and the session computes `7 + 3 = 10`.  Re-prompting only the
operator would instead have computed `5 + 3 = 8`, which never appears. -/
theorem calc_invalidOp_restartsIteration :
    run_calculator ["5", "%", "7", "+", "3"] =
      ([.invalidOp "%", .result 7 "+" 3 10], .inputExhausted) ∧
    CalcOutput.result 5 "+" 3 8 ∉ (run_calculator ["5", "%", "7", "+", "3"]).1 := by
  constructor <;> with_unfolding_all decide

/-- C5 amended: the indefinite same-field re-prompt holds for the contact
book's `get_validated_input` (any number of invalid lines for one field are
consumed and the first valid line is returned, so earlier accepted fields
are untouched); the due-date prompt is one-shot; but the calculator, on an
invalid operand or operator, abandons the iteration and restarts at the
first operand rather than re-prompting the failed field. -/
theorem get_validated_input_retries (ty : VType) (bads : List String)
    (good : String) (rest : List String)
    (hbads : ∀ b ∈ bads, validates ty (pystrip b) = false)
    (hgood : validates ty (pystrip good) = true) :
    get_validated_input ty (bads ++ good :: rest) = some (pystrip good, rest) := by
  induction bads with
  | nil => simp [get_validated_input, hgood]
  | cons b bs ih =>
    have hb := hbads b (List.mem_cons_self _ _)
    rw [List.cons_append]
    unfold get_validated_input
    rw [if_neg (by simp [hb])]
    exact ih (fun x hx => hbads x (List.mem_cons_of_mem _ hx))

/-- C5 witness: two invalid email entries (empty, shapeless) are re-prompted
past; the third, valid entry is returned with the rest of the script. -/
theorem get_validated_input_retries_witness :
    get_validated_input .email ["", "no-at-sign", " a@b.c ", "later"] =
      some ("a@b.c", ["later"]) :=
  (get_validated_input_retries .email ["", "no-at-sign"] " a@b.c " ["later"]
    (by decide) (by decide)).trans (by decide)

/-! ### Contact update and delete (`contact_book.py:135-195`) -/

/-- The `validation_type` chosen per `CONTACT_FIELDS` position
(contact_book.py:163): phone for field 1, email for field 2, text
otherwise. -/
def field_vtype : ℕ → VType
  | 1 => .phone
  | 2 => .email
  | _ => .text

/-- Assignment `contact_to_update[field] = value` by field position. -/
def set_field (c : Contact) : ℕ → String → Contact
  | 0, v => { c with name := v }
  | 1, v => { c with phone := v }
  | 2, v => { c with email := v }
  | _, v => { c with address := v }

/-- Outcome of an update/delete handler: the resulting collection, whether
`save_contacts` ran, and whether the invalid-number error was printed;
`eofCrash` is the script running out at an unguarded `input()`. -/
inductive CbResult where
  | ok (contacts : List Contact) (saved : Bool) (errored : Bool)
  | eofCrash
deriving DecidableEq, Repr

/-- The per-field loop of `update_contact` (contact_book.py:157-169):
press-enter keeps the current value; a non-empty entry is re-requested
through `get_validated_input` (whose `EOFError` on an exhausted script is
caught, keeping the first entry). `none` is the uncaught `EOFError` at the
outer prompt. -/
def update_fields (c : Contact) : List ℕ → List String → Option (Contact × List String)
  | [], inputs => some (c, inputs)
  | _ :: _, [] => none
  | f :: fs, raw :: rest =>
    let new_value := pystrip raw
    if new_value = "" then update_fields c fs rest
    else
      match get_validated_input (field_vtype f) rest with
      | some (validated, rest2) => update_fields (set_field c f validated) fs rest2
      | none => update_fields (set_field c f new_value) fs []

/-- `update_contact` (contact_book.py:135-172) over an input script: the
first line is the 1-based index (parse failure or out-of-range prints the
error and returns with no save); in range, the four field prompts run and
the collection with the updated record is saved. -/
def update_contact (contacts_list : List Contact) (inputs : List String) : CbResult :=
  if contacts_list.isEmpty then .ok contacts_list false false
  else
    match inputs with
    | [] => .eofCrash
    | index_str :: rest =>
      match pyint (pystrip index_str) with
      | none => .ok contacts_list false true
      | some n =>
        let contact_index := n - 1
        if 0 ≤ contact_index ∧ contact_index < (contacts_list.length : ℤ) then
          match update_fields (contacts_list.getD contact_index.toNat ⟨"", "", "", ""⟩)
              [0, 1, 2, 3] rest with
          | some (c2, _) => .ok (contacts_list.set contact_index.toNat c2) true false
          | none => .eofCrash
        else .ok contacts_list false true

/-- `delete_contact` (contact_book.py:175-195) over an input script:
the first line is the 1-based index; parse failure or out-of-range prints
the error and returns with no save; in range, `pop` removes the record and
the collection is saved. -/
def delete_contact (contacts_list : List Contact) (inputs : List String) : CbResult :=
  if contacts_list.isEmpty then .ok contacts_list false false
  else
    match inputs with
    | [] => .eofCrash
    | index_str :: _ =>
      match pyint (pystrip index_str) with
      | none => .ok contacts_list false true
      | some n =>
        let contact_index := n - 1
        if 0 ≤ contact_index ∧ contact_index < (contacts_list.length : ℤ) then
          .ok (contacts_list.eraseIdx contact_index.toNat) true false
        else .ok contacts_list false true

/-- C6: an entered index outside `[1, length]` leaves the collection
exactly as it was, performs no save, and reports the error, for both the
update and the delete handler. -/
theorem outOfRange_index_noMutation (contacts : List Contact)
    (index_str : String) (rest : List String) (n : ℤ)
    (hne : contacts ≠ [])
    (hp : pyint (pystrip index_str) = some n)
    (hout : ¬ (1 ≤ n ∧ n ≤ (contacts.length : ℤ))) :
    update_contact contacts (index_str :: rest) = .ok contacts false true ∧
    delete_contact contacts (index_str :: rest) = .ok contacts false true := by
  have hrange : ¬ (0 ≤ n - 1 ∧ n - 1 < (contacts.length : ℤ)) := by omega
  constructor
  · unfold update_contact
    rw [if_neg (by simpa using hne)]
    dsimp only
    rw [hp]
    dsimp only
    rw [if_neg hrange]
  · unfold delete_contact
    rw [if_neg (by simpa using hne)]
    dsimp only
    rw [hp]
    dsimp only
    rw [if_neg hrange]

/-- C6 witness: index 99 against a 3-contact book changes nothing and skips
the save, in both handlers. -/
theorem outOfRange_index_noMutation_witness :
    update_contact
        [⟨"A", "1", "a@b.c", ""⟩, ⟨"B", "2", "b@b.c", ""⟩, ⟨"C", "3", "c@b.c", ""⟩]
        ["99"] =
      .ok [⟨"A", "1", "a@b.c", ""⟩, ⟨"B", "2", "b@b.c", ""⟩, ⟨"C", "3", "c@b.c", ""⟩]
        false true ∧
    delete_contact
        [⟨"A", "1", "a@b.c", ""⟩, ⟨"B", "2", "b@b.c", ""⟩, ⟨"C", "3", "c@b.c", ""⟩]
        ["99"] =
      .ok [⟨"A", "1", "a@b.c", ""⟩, ⟨"B", "2", "b@b.c", ""⟩, ⟨"C", "3", "c@b.c", ""⟩]
        false true :=
  outOfRange_index_noMutation _ "99" [] 99 (by decide) (by decide) (by decide)
